import Mathlib

/-!
A shallow embedding of the `piston_rs` client library (`src/client.rs`) and
proofs about its request/response normalization logic.

The HTTP transport is external to the library; we model the outcome of a
transport call (`reqwest::Client::post(...).send().await` and the subsequent
body reads) as explicit inputs to `Client.execute`.  Panics of the Rust code
(`.unwrap()` on header-value construction) are modelled as `Option.none`.
-/

namespace PistonRs

/-- A single source file payload, as in the wire schema
`{name?, content, encoding?}` (fields as used by the library). -/
structure File where
  name : Option String
  content : String
  encoding : Option String
deriving DecidableEq, Repr

/-- The request builder.  Only `language` and `version` are read by
`Client::execute` (src/client.rs lines 301-302); the remaining fields are the
wire-schema fields of the request body. -/
structure Executor where
  language : String
  version : String
  files : List File
  stdin : String
  args : List String
  compile_timeout : Option Int
  run_timeout : Option Int
  compile_memory_limit : Option Int
  run_memory_limit : Option Int
deriving DecidableEq, Repr

/-- The outcome of one execution stage (compile or run):
`{stdout, stderr, output, code, signal?}`. -/
structure ExecResult where
  stdout : String
  stderr : String
  output : String
  code : Int
  signal : Option String
deriving DecidableEq, Repr

/-- The raw remote payload of a 200 response:
`{language, version, run, compile?}` (fields as destructured in
src/client.rs lines 281-286). -/
structure RawExecResponse where
  language : String
  version : String
  run : ExecResult
  compile : Option ExecResult
deriving DecidableEq, Repr

/-- The response returned to the caller: the raw payload plus the observed
numeric HTTP status (`status.as_u16()`, a `u16`, modelled as `Nat`). -/
structure ExecResponse where
  language : String
  version : String
  run : ExecResult
  compile : Option ExecResult
  status : Nat
deriving DecidableEq, Repr

/-- Validity predicate of `http::HeaderValue::from_str`.  The http crate
checks every UTF-8 byte `b` of the string with
`b >= 32 && b != 127 || b == 9`.  Bytes `>= 128` pass that check, and a
`char` with codepoint `>= 128` encodes to bytes that are all `>= 128`, while
a `char` below 128 encodes to the single byte equal to its codepoint; so the
byte-level check is equivalent to this per-character check. -/
def validHeaderValue (s : String) : Bool :=
  s.data.all fun c =>
    c.toNat == 9 || (decide (32 ≤ c.toNat) && c.toNat != 127) || decide (128 ≤ c.toNat)

/-- Rust `HeaderValue::from_str`: `none` models the `Err` case, whose `.unwrap()`
in `generate_headers` is a panic. -/
def HeaderValue.from_str (s : String) : Option String :=
  if validHeaderValue s then some s else none

/-- A header map: insertion-ordered (name, value) pairs.  All names inserted
and queried by the library are distinct literals, so case normalization of
`http::HeaderMap` is immaterial here. -/
def HeaderMap : Type := List (String × String)

/-- Rust `HeaderMap::insert`: replaces any existing entry for the name. -/
def HeaderMap.insert (m : HeaderMap) (k v : String) : HeaderMap :=
  (List.filter (fun p => p.1 != k) m) ++ [(k, v)]

/-- Rust `HeaderMap::get`. -/
def HeaderMap.get (m : HeaderMap) (k : String) : Option String :=
  (List.find? (fun p => p.1 == k) m).map Prod.snd

/-- Rust `HeaderMap::contains_key`. -/
def HeaderMap.contains_key (m : HeaderMap) (k : String) : Bool :=
  (HeaderMap.get m k).isSome

/-- Rust `Client::generate_headers` (src/client.rs lines 187-197).  The
`.unwrap()` calls on `HeaderValue::from_str` can panic, modelled by the
`Option` monad. -/
def generate_headers (key : Option String) : Option HeaderMap := do
  let accept ← HeaderValue.from_str "application/json"
  let ua ← HeaderValue.from_str "piston-rs"
  let headers := HeaderMap.insert (HeaderMap.insert [] "Accept" accept) "User-Agent" ua
  match key with
  | some k => do
      let v ← HeaderValue.from_str k
      pure (HeaderMap.insert headers "Authorization" v)
  | none => pure headers

/-- The client: base url and headers.  The inner `reqwest::Client` holds no
state observable through this library's API and is omitted. -/
structure Client where
  url : String
  headers : HeaderMap

/-- The fixed public endpoint used by `Client::new` and `Client::with_key`. -/
def piston_url : String := "https://emkc.org/api/v2/piston"

/-- Rust `Client::new` (src/client.rs lines 56-62). -/
def Client.new : Option Client :=
  (generate_headers none).map fun h => { url := piston_url, headers := h }

/-- Rust `Client::with_url` (src/client.rs lines 79-85). -/
def Client.with_url (url : String) : Option Client :=
  (generate_headers none).map fun h => { url := url, headers := h }

/-- Rust `Client::with_key` (src/client.rs lines 102-108). -/
def Client.with_key (key : String) : Option Client :=
  (generate_headers (some key)).map fun h => { url := piston_url, headers := h }

/-- Rust `Client::with_url_and_key` (src/client.rs lines 126-132). -/
def Client.with_url_and_key (url key : String) : Option Client :=
  (generate_headers (some key)).map fun h => { url := url, headers := h }

/-- Rust `Client::get_url` (returns a clone of the url string). -/
def Client.get_url (c : Client) : String := c.url

/-- Rust `Client::get_headers` (returns a clone of the header map). -/
def Client.get_headers (c : Client) : HeaderMap := c.headers

/-- An HTTP status code.  `http::StatusCode` stores the numeric `u16`; its
canonical reason phrase is derived from the code by a fixed table in the
http crate, which we abstract by carrying the reason alongside the code. -/
structure StatusCode where
  code : Nat
  canonicalReason : Option String
deriving DecidableEq, Repr

/-- The `Display` of `http::StatusCode`:
`"{code} {canonical reason or <unknown status code>}"`. -/
def StatusCode.display (s : StatusCode) : String :=
  toString s.code ++ " " ++ s.canonicalReason.getD "<unknown status code>"

/-- A received HTTP response, as observed by `Client::execute`: its status,
and the outcomes of the two possible body reads
(`data.json::<RawExecResponse>().await` and `data.text().await`), each of
which may itself fail. -/
structure SimResponse where
  status : StatusCode
  json : Except String RawExecResponse
  text : Except String String

/-- Rust `Client::execute` (src/client.rs lines 263-314).  `transport` is the
outcome of `self.client.post(endpoint).headers(..).json(executor).send()`:
`Except.error` when the transport call itself fails, `Except.ok` when a
response was received. -/
def Client.execute (_c : Client) (executor : Executor)
    (transport : Except String SimResponse) : Except String ExecResponse :=
  match transport with
  | Except.error e => Except.error e
  | Except.ok data =>
    if data.status.code = 200 then
      match data.json with
      | Except.error e => Except.error e
      | Except.ok response =>
          Except.ok
            { language := response.language
              version := response.version
              run := response.run
              compile := response.compile
              status := data.status.code }
    else
      match data.text with
      | Except.error e => Except.error e
      | Except.ok body =>
          let text := StatusCode.display data.status ++ ": " ++ body
          Except.ok
            { language := executor.language
              version := executor.version
              run :=
                { stdout := ""
                  stderr := text
                  output := text
                  code := 1
                  signal := none }
              compile := none
              status := data.status.code }

/-- Discriminator for `Except` results (`Result::is_ok`). -/
def exceptIsOk {ε α : Type} : Except ε α → Bool
  | Except.ok _ => true
  | Except.error _ => false


/-- A concrete executor used in witnesses (the spec's example request). -/
def exW : Executor :=
  { language := "rust", version := "1.50.0", files := [], stdin := "", args := []
    compile_timeout := none, run_timeout := none
    compile_memory_limit := none, run_memory_limit := none }

/-- A concrete client used in witnesses. -/
def cW : Client :=
  { url := piston_url
    headers := [("Accept", "application/json"), ("User-Agent", "piston-rs")] }

/-- A concrete run result (the spec's example 200 payload). -/
def runW : ExecResult :=
  { stdout := "42\n", stderr := "", output := "42\n", code := 0, signal := none }

/-- A concrete 400 response with readable body, as in the spec's example. -/
def resp400W : SimResponse :=
  { status := { code := 400, canonicalReason := some "Bad Request" }
    json := Except.error "irrelevant"
    text := Except.ok "bad request" }

/-- A concrete 200 response whose body deserializes to the spec's example
payload. -/
def resp200W : SimResponse :=
  { status := { code := 200, canonicalReason := some "OK" }
    json := Except.ok
      { language := "rust", version := "1.50.0", run := runW, compile := none }
    text := Except.ok "ignored" }

/-- A concrete 200 response whose body fails to deserialize. -/
def resp200badW : SimResponse :=
  { status := { code := 200, canonicalReason := some "OK" }
    json := Except.error "error decoding response body"
    text := Except.ok "not json" }

/-- Helper: the header map produced when a valid key is supplied. -/
theorem generate_headers_some_eq (k : String) (hv : validHeaderValue k = true) :
    generate_headers (some k) =
      some [("Accept", "application/json"), ("User-Agent", "piston-rs"),
            ("Authorization", k)] := by
  simp [generate_headers, HeaderValue.from_str, hv, HeaderMap.insert]
  rfl

/-- Helper: the header map produced when no key is supplied. -/
theorem generate_headers_none_eq :
    generate_headers none =
      some [("Accept", "application/json"), ("User-Agent", "piston-rs")] := rfl

/-- Helper: an invalid key makes `generate_headers` panic (`none`). -/
theorem generate_headers_invalid (k : String) (hv : validHeaderValue k = false) :
    generate_headers (some k) = none := by
  simp [generate_headers, HeaderValue.from_str, hv]

/-- C1: For every non-200 HTTP status response received by `Client.execute`
whose body text is readable, the call returns `Ok` with a synthesized
`ExecResponse`: its run result has empty `stdout`, `stderr` and `output`
both equal to the diagnostic string "{status}: {body text}", `code = 1` and
no `signal`; `compile` is absent, `status` is the observed numeric code,
and `language`/`version` are copied from the original `Executor`. -/
theorem execute_non200_synthesizes (c : Client) (ex : Executor)
    (data : SimResponse) (body : String)
    (hs : data.status.code ≠ 200) (ht : data.text = Except.ok body) :
    Client.execute c ex (Except.ok data) =
      Except.ok
        { language := ex.language
          version := ex.version
          run :=
            { stdout := ""
              stderr := StatusCode.display data.status ++ ": " ++ body
              output := StatusCode.display data.status ++ ": " ++ body
              code := 1
              signal := none }
          compile := none
          status := data.status.code } := by
  simp [Client.execute, hs, ht]

/-- C1 witness: the spec's simulated 400 response with body "bad request"
against the example executor. -/
theorem execute_non200_synthesizes_witness :
    Client.execute cW exW (Except.ok resp400W) =
      Except.ok
        { language := "rust"
          version := "1.50.0"
          run :=
            { stdout := ""
              stderr := "400 Bad Request: bad request"
              output := "400 Bad Request: bad request"
              code := 1
              signal := none }
          compile := none
          status := 400 } := by
  exact execute_non200_synthesizes cW exW resp400W "bad request" (by decide) rfl

/-- C3: For every response with HTTP status 200 whose body deserializes to
the raw remote schema, `Client.execute` returns `Ok` with an `ExecResponse`
whose `language`, `version`, `run` and `compile` equal the deserialized
payload's verbatim, and whose `status` is 200. -/
theorem execute_200_verbatim (c : Client) (ex : Executor)
    (data : SimResponse) (resp : RawExecResponse)
    (hs : data.status.code = 200) (hj : data.json = Except.ok resp) :
    Client.execute c ex (Except.ok data) =
      Except.ok
        { language := resp.language
          version := resp.version
          run := resp.run
          compile := resp.compile
          status := 200 } := by
  simp [Client.execute, hs, hj]

/-- C3 witness: the spec's simulated 200 response carrying the example
payload. -/
theorem execute_200_verbatim_witness :
    Client.execute cW exW (Except.ok resp200W) =
      Except.ok
        { language := "rust"
          version := "1.50.0"
          run := runW
          compile := none
          status := 200 } := by
  exact execute_200_verbatim cW exW resp200W
    { language := "rust", version := "1.50.0", run := runW, compile := none }
    rfl rfl

/-- C7: For every 200-status response whose body fails to deserialize to
the raw remote schema, `Client.execute` propagates the failure as an error
rather than synthesizing an `ExecResponse`. -/
theorem execute_200_deser_error (c : Client) (ex : Executor)
    (data : SimResponse) (e : String)
    (hs : data.status.code = 200) (hj : data.json = Except.error e) :
    Client.execute c ex (Except.ok data) = Except.error e := by
  simp [Client.execute, hs, hj]

/-- C7 witness: a 200 response with an undeserializable body. -/
theorem execute_200_deser_error_witness :
    Client.execute cW exW (Except.ok resp200badW) =
      Except.error "error decoding response body" := by
  exact execute_200_deser_error cW exW resp200badW
    "error decoding response body" rfl rfl

/-- C8: `Client.execute` is deterministic: two calls with the same client
and `Executor` that observe the same transport outcome (same status and
body-read results, or the same transport failure) yield identical results;
the embedding is a pure function of its inputs, mirroring that the Rust
method takes `&self` and `&Executor` and mutates neither. -/
theorem execute_deterministic (c : Client) (ex : Executor)
    (t1 t2 : Except String SimResponse) (h : t1 = t2) :
    Client.execute c ex t1 = Client.execute c ex t2 := by
  rw [h]

/-- C8 witness: two identical calls on the example 200 response agree. -/
theorem execute_deterministic_witness :
    Client.execute cW exW (Except.ok resp200W) =
      Client.execute cW exW (Except.ok resp200W) := by
  exact execute_deterministic cW exW (Except.ok resp200W) (Except.ok resp200W) rfl

/-- C2 counterexample: a case where the service replied (status 200) yet
`Client.execute` returns an error — the body failed to deserialize — so the
claim that every replied case yields `Ok` is false. -/
theorem execute_replied_not_always_ok :
    exceptIsOk (Client.execute cW exW (Except.ok resp200badW)) = false := rfl

/-- C2 amended: `Client.execute` returns `Ok` exactly when a response was
received and its subsequent body processing succeeded: either status 200
with a body that deserializes, or a non-200 status with a readable body
text.  Every other case — transport failure, deserialization failure on a
200, body-read failure on a non-200 — returns an error. -/
theorem execute_ok_iff (c : Client) (ex : Executor)
    (t : Except String SimResponse) :
    exceptIsOk (Client.execute c ex t) = true ↔
      ∃ data, t = Except.ok data ∧
        ((data.status.code = 200 ∧ ∃ r, data.json = Except.ok r) ∨
         (data.status.code ≠ 200 ∧ ∃ b, data.text = Except.ok b)) := by
  cases t with
  | error e => simp [Client.execute, exceptIsOk]
  | ok data =>
    by_cases h : data.status.code = 200
    · cases hj : data.json <;> simp [Client.execute, exceptIsOk, h, hj]
    · cases htx : data.text <;> simp [Client.execute, exceptIsOk, h, htx]

/-- C4: `generate_headers` with a key yields a map whose Authorization
entry is exactly that key; with no key the map has no Authorization
entry. -/
theorem generate_headers_authorization :
    (∀ k m, generate_headers (some k) = some m →
        HeaderMap.get m "Authorization" = some k) ∧
    (∀ m, generate_headers none = some m →
        HeaderMap.contains_key m "Authorization" = false) := by
  constructor
  · intro k m h
    by_cases hv : validHeaderValue k = true
    · rw [generate_headers_some_eq k hv] at h
      injection h with h'
      subst h'
      rfl
    · rw [generate_headers_invalid k (by simpa using hv)] at h
      exact absurd h (by simp)
  · intro m h
    rw [generate_headers_none_eq] at h
    injection h with h'
    subst h'
    rfl

/-- C4 witness: the key "123abc" and the no-key case, on the concretely
computed header maps. -/
theorem generate_headers_authorization_witness :
    HeaderMap.get
      [("Accept", "application/json"), ("User-Agent", "piston-rs"),
       ("Authorization", "123abc")] "Authorization" = some "123abc" ∧
    HeaderMap.contains_key
      [("Accept", "application/json"), ("User-Agent", "piston-rs")]
      "Authorization" = false :=
  ⟨generate_headers_authorization.1 "123abc" _ (by rfl),
   generate_headers_authorization.2 _ (by rfl)⟩

/-- C5: whatever the optional key, any header map `generate_headers`
produces contains Accept = "application/json" and the fixed client
identity User-Agent = "piston-rs". -/
theorem generate_headers_accept_user_agent :
    ∀ key m, generate_headers key = some m →
      HeaderMap.get m "Accept" = some "application/json" ∧
      HeaderMap.get m "User-Agent" = some "piston-rs" := by
  intro key m h
  cases key with
  | none =>
    rw [generate_headers_none_eq] at h
    injection h with h'
    subst h'
    exact ⟨rfl, rfl⟩
  | some k =>
    by_cases hv : validHeaderValue k = true
    · rw [generate_headers_some_eq k hv] at h
      injection h with h'
      subst h'
      exact ⟨rfl, rfl⟩
    · rw [generate_headers_invalid k (by simpa using hv)] at h
      exact absurd h (by simp)

/-- C5 witness: the no-key case on the concretely computed header map. -/
theorem generate_headers_accept_user_agent_witness :
    HeaderMap.get
      [("Accept", "application/json"), ("User-Agent", "piston-rs")]
      "Accept" = some "application/json" ∧
    HeaderMap.get
      [("Accept", "application/json"), ("User-Agent", "piston-rs")]
      "User-Agent" = some "piston-rs" :=
  generate_headers_accept_user_agent none _ (by rfl)

/-- C6: a client constructed with a custom url returns exactly that url
from its accessor, and default construction returns the fixed public
endpoint. -/
theorem client_url_preserved :
    (∀ u, (Client.with_url u).map Client.get_url = some u) ∧
    Client.new.map Client.get_url = some "https://emkc.org/api/v2/piston" :=
  ⟨fun _ => rfl, rfl⟩

/-- C9: a client constructed via `with_key` uses the same fixed default
base url as one constructed via `new`. -/
theorem with_key_default_url (k : String) (c : Client)
    (h : Client.with_key k = some c) :
    Client.get_url c = "https://emkc.org/api/v2/piston" ∧
    Client.new.map Client.get_url = some (Client.get_url c) := by
  rcases Option.map_eq_some'.mp h with ⟨hm, _, hc⟩
  subst hc
  exact ⟨rfl, rfl⟩

/-- C9 witness: the key "123abc" and the concretely computed client. -/
theorem with_key_default_url_witness :
    Client.get_url
      { url := piston_url
        headers := [("Accept", "application/json"),
                    ("User-Agent", "piston-rs"), ("Authorization", "123abc")] } =
      "https://emkc.org/api/v2/piston" ∧
    Client.new.map Client.get_url =
      some (Client.get_url
        { url := piston_url
          headers := [("Accept", "application/json"),
                      ("User-Agent", "piston-rs"), ("Authorization", "123abc")] }) :=
  with_key_default_url "123abc" _ (by rfl)

/-- C10: `generate_headers` (hence `with_key` and `with_url_and_key`)
panics — modelled as `none` — when the key is not a valid header value
(e.g. contains a newline or another control character); for every key made
of visible ASCII characters only, header construction succeeds. -/
theorem generate_headers_panics_on_invalid_key (k : String) :
    (validHeaderValue k = false →
      generate_headers (some k) = none ∧ Client.with_key k = none ∧
      ∀ u, Client.with_url_and_key u k = none) ∧
    ((∀ ch ∈ k.data, 33 ≤ ch.toNat ∧ ch.toNat ≤ 126) →
      (generate_headers (some k)).isSome = true) := by
  constructor
  · intro hv
    have hg := generate_headers_invalid k hv
    refine ⟨hg, ?_, fun u => ?_⟩
    · simp [Client.with_key, hg]
    · simp [Client.with_url_and_key, hg]
  · intro hvis
    have hv : validHeaderValue k = true := by
      simp only [validHeaderValue, List.all_eq_true]
      intro ch hch
      rcases hvis ch hch with ⟨h1, h2⟩
      simp only [Bool.or_eq_true, Bool.and_eq_true, beq_iff_eq, bne_iff_ne,
        decide_eq_true_eq]
      omega
    rw [generate_headers_some_eq k hv]
    rfl

/-- C10 witness: the invalid key "bad\nkey" (contains a newline) panics,
and the visible-ASCII key "123abc" succeeds. -/
theorem generate_headers_panics_on_invalid_key_witness :
    (validHeaderValue "bad\nkey" = false ∧
      generate_headers (some "bad\nkey") = none ∧
      Client.with_key "bad\nkey" = none) ∧
    (generate_headers (some "123abc")).isSome = true :=
  ⟨⟨by decide,
    ((generate_headers_panics_on_invalid_key "bad\nkey").1 (by decide)).1,
    ((generate_headers_panics_on_invalid_key "bad\nkey").1 (by decide)).2.1⟩,
   (generate_headers_panics_on_invalid_key "123abc").2 (by decide)⟩

end PistonRs
